import Mathlib

/-!
# Verification of the YOLO tracking server's decision logic

A shallow embedding of `src/python/yolo_tracker.py`: the detection data
model, the face and object target-selection policies, natural-language
alias resolution, and the tracking state machine exposed by the HTTP
handlers.  Real numbers carried by detections (confidence, coordinates,
areas) are modelled as rationals; Python strings as Lean strings; the
mutable global `tracked_object` as an `Option String` threaded through
the handler functions.  Python's `max(xs, key=f)` (which returns the
first element attaining the maximal key) is modelled by a fold that
replaces the running best only on strict improvement.
-/

/-- Normalized bounding box, the `bbox` dict of a detection
(`x1,y1,x2,y2` each a fraction of the image dimension). -/
structure BBox where
  x1 : ℚ
  y1 : ℚ
  x2 : ℚ
  y2 : ℚ
deriving DecidableEq, Repr

/-- One detection as built by `detect_objects` in `yolo_tracker.py`
(lines 127-141): class label, confidence, normalized center `(x, y)`,
normalized size, area and bounding box.  The Python dict key `"class"`
is the field `cls`. -/
structure Detection where
  cls : String
  confidence : ℚ
  x : ℚ
  y : ℚ
  width : ℚ
  height : ℚ
  area : ℚ
  bbox : BBox
deriving DecidableEq, Repr

/-- `COCO_CLASSES` from `yolo_tracker.py` lines 36-47: the fixed
80-entry class vocabulary. -/
def COCO_CLASSES : List String :=
  ["person", "bicycle", "car", "motorcycle", "airplane", "bus", "train", "truck", "boat",
   "traffic light", "fire hydrant", "stop sign", "parking meter", "bench", "bird", "cat",
   "dog", "horse", "sheep", "cow", "elephant", "bear", "zebra", "giraffe", "backpack",
   "umbrella", "handbag", "tie", "suitcase", "frisbee", "skis", "snowboard", "sports ball",
   "kite", "baseball bat", "baseball glove", "skateboard", "surfboard", "tennis racket",
   "bottle", "wine glass", "cup", "fork", "knife", "spoon", "bowl", "banana", "apple",
   "sandwich", "orange", "broccoli", "carrot", "hot dog", "pizza", "donut", "cake", "chair",
   "couch", "potted plant", "bed", "dining table", "toilet", "tv", "laptop", "mouse",
   "remote", "keyboard", "cell phone", "microwave", "oven", "toaster", "sink", "refrigerator",
   "book", "clock", "vase", "scissors", "teddy bear", "hair drier", "toothbrush"]

/-- Class-label lookup of `detect_objects` (line 108):
`COCO_CLASSES[cls_id] if cls_id < len(COCO_CLASSES) else f"class_{cls_id}"`. -/
def cocoClassName (clsId : ℕ) : String :=
  if h : clsId < COCO_CLASSES.length then COCO_CLASSES.get ⟨clsId, h⟩
  else "class_" ++ toString clsId

/-- Python's `str.lower()`, character by character (the strings in play
are ASCII). -/
def pyLower (s : String) : String :=
  ⟨s.data.map Char.toLower⟩

/-- Python's `str.strip()`: drop leading and trailing whitespace. -/
def pyStrip (s : String) : String :=
  ⟨((s.data.dropWhile Char.isWhitespace).reverse.dropWhile Char.isWhitespace).reverse⟩

/-- Python's substring test `needle in hay` on strings. -/
def isSubstrOf (needle hay : String) : Bool :=
  hay.data.tails.any (fun t => needle.data.isPrefixOf t)

/-- Python's `max(d :: ds, key=key)`: fold keeping the current best,
replacing it only when a later element's key is strictly greater, so
the first element attaining the maximum wins.  `none` on `[]` models
that the callers guard against empty lists before calling `max`. -/
def maxByKey (key : Detection → ℚ) : List Detection → Option Detection
  | [] => none
  | d :: ds => some (ds.foldl (fun best x => if key x > key best then x else best) d)

/-- Result dict of `find_face` (lines 172-179). -/
structure FoundFace where
  detected : Bool
  x : ℚ
  y : ℚ
  distance : String
  confidence : ℚ
  bbox : BBox
deriving DecidableEq, Repr

/-- `find_face` (lines 154-179): keep only `"person"` detections,
take the one of maximal area (first wins ties), and band the area into
a coarse distance estimate. -/
def find_face (detections : List Detection) : Option FoundFace :=
  let persons := detections.filter (fun d => d.cls == "person")
  match maxByKey (fun d => d.area) persons with
  | none => none
  | some largest =>
      let distance : String :=
        if largest.area > 15/100 then "close"
        else if largest.area > 5/100 then "medium"
        else "far"
      some ⟨true, largest.x, largest.y, distance, largest.confidence, largest.bbox⟩

/-- The `aliases` dict of `find_tracked_object` (lines 197-364): the
static mapping from user terms to canonical COCO class labels, in
source order. -/
def aliases : List (String × List String) :=
  [("phone", ["cell phone"]),
   ("cellphone", ["cell phone"]),
   ("mobile", ["cell phone"]),
   ("smartphone", ["cell phone"]),
   ("iphone", ["cell phone"]),
   ("android", ["cell phone"]),
   ("remote", ["remote"]),
   ("controller", ["remote"]),
   ("gamepad", ["remote"]),
   ("joystick", ["remote"]),
   ("game controller", ["remote"]),
   ("xbox controller", ["remote"]),
   ("playstation controller", ["remote"]),
   ("tv", ["tv"]),
   ("television", ["tv"]),
   ("monitor", ["tv"]),
   ("screen", ["tv", "laptop"]),
   ("laptop", ["laptop"]),
   ("computer", ["laptop"]),
   ("notebook", ["laptop"]),
   ("macbook", ["laptop"]),
   ("keyboard", ["keyboard"]),
   ("mouse", ["mouse"]),
   ("cup", ["cup"]),
   ("mug", ["cup"]),
   ("glass", ["cup", "wine glass"]),
   ("bottle", ["bottle"]),
   ("water bottle", ["bottle"]),
   ("wine glass", ["wine glass"]),
   ("drink", ["cup", "bottle", "wine glass"]),
   ("face", ["person"]),
   ("head", ["person"]),
   ("me", ["person"]),
   ("myself", ["person"]),
   ("user", ["person"]),
   ("person", ["person"]),
   ("human", ["person"]),
   ("man", ["person"]),
   ("woman", ["person"]),
   ("guy", ["person"]),
   ("girl", ["person"]),
   ("chair", ["chair"]),
   ("seat", ["chair"]),
   ("couch", ["couch"]),
   ("sofa", ["couch"]),
   ("bed", ["bed"]),
   ("table", ["dining table"]),
   ("desk", ["dining table"]),
   ("apple", ["apple"]),
   ("banana", ["banana"]),
   ("orange", ["orange"]),
   ("pizza", ["pizza"]),
   ("donut", ["donut"]),
   ("doughnut", ["donut"]),
   ("cake", ["cake"]),
   ("sandwich", ["sandwich"]),
   ("hot dog", ["hot dog"]),
   ("hotdog", ["hot dog"]),
   ("carrot", ["carrot"]),
   ("broccoli", ["broccoli"]),
   ("bowl", ["bowl"]),
   ("food", ["pizza", "sandwich", "apple", "banana", "orange", "cake", "donut"]),
   ("fork", ["fork"]),
   ("knife", ["knife"]),
   ("spoon", ["spoon"]),
   ("utensil", ["fork", "knife", "spoon"]),
   ("microwave", ["microwave"]),
   ("oven", ["oven"]),
   ("toaster", ["toaster"]),
   ("sink", ["sink"]),
   ("refrigerator", ["refrigerator"]),
   ("fridge", ["refrigerator"]),
   ("book", ["book"]),
   ("clock", ["clock"]),
   ("watch", ["clock"]),
   ("vase", ["vase"]),
   ("scissors", ["scissors"]),
   ("teddy bear", ["teddy bear"]),
   ("teddy", ["teddy bear"]),
   ("stuffed animal", ["teddy bear"]),
   ("toothbrush", ["toothbrush"]),
   ("hair drier", ["hair drier"]),
   ("hairdryer", ["hair drier"]),
   ("backpack", ["backpack"]),
   ("bag", ["backpack", "handbag"]),
   ("handbag", ["handbag"]),
   ("purse", ["handbag"]),
   ("suitcase", ["suitcase"]),
   ("luggage", ["suitcase"]),
   ("umbrella", ["umbrella"]),
   ("tie", ["tie"]),
   ("necktie", ["tie"]),
   ("ball", ["sports ball"]),
   ("sports ball", ["sports ball"]),
   ("frisbee", ["frisbee"]),
   ("skateboard", ["skateboard"]),
   ("surfboard", ["surfboard"]),
   ("tennis racket", ["tennis racket"]),
   ("racket", ["tennis racket"]),
   ("baseball bat", ["baseball bat"]),
   ("bat", ["baseball bat"]),
   ("baseball glove", ["baseball glove"]),
   ("glove", ["baseball glove"]),
   ("skis", ["skis"]),
   ("snowboard", ["snowboard"]),
   ("kite", ["kite"]),
   ("car", ["car"]),
   ("automobile", ["car"]),
   ("vehicle", ["car", "truck", "bus", "motorcycle"]),
   ("truck", ["truck"]),
   ("bus", ["bus"]),
   ("motorcycle", ["motorcycle"]),
   ("motorbike", ["motorcycle"]),
   ("bike", ["bicycle", "motorcycle"]),
   ("bicycle", ["bicycle"]),
   ("boat", ["boat"]),
   ("ship", ["boat"]),
   ("airplane", ["airplane"]),
   ("plane", ["airplane"]),
   ("train", ["train"]),
   ("cat", ["cat"]),
   ("kitty", ["cat"]),
   ("dog", ["dog"]),
   ("puppy", ["dog"]),
   ("bird", ["bird"]),
   ("horse", ["horse"]),
   ("cow", ["cow"]),
   ("sheep", ["sheep"]),
   ("elephant", ["elephant"]),
   ("bear", ["bear"]),
   ("zebra", ["zebra"]),
   ("giraffe", ["giraffe"]),
   ("animal", ["cat", "dog", "bird", "horse", "cow", "sheep", "elephant", "bear"]),
   ("plant", ["potted plant"]),
   ("potted plant", ["potted plant"]),
   ("flower", ["potted plant"]),
   ("bench", ["bench"]),
   ("toilet", ["toilet"]),
   ("fire hydrant", ["fire hydrant"]),
   ("hydrant", ["fire hydrant"]),
   ("stop sign", ["stop sign"]),
   ("traffic light", ["traffic light"]),
   ("parking meter", ["parking meter"])]

/-- Python dict lookup `aliases[term]` guarded by `term in aliases`. -/
def aliasLookup (term : String) : Option (List String) :=
  (aliases.find? (fun p => p.1 == term)).map Prod.snd

/-- The term normalization of `find_tracked_object` line 185:
`object_name.lower().strip()`. -/
def normalizeTerm (objectName : String) : String :=
  pyStrip (pyLower objectName)

/-- `search_names` of `find_tracked_object` (lines 367-369): the
normalized term itself, extended by its alias entries when present. -/
def searchNames (objectName : String) : List String :=
  let n := normalizeTerm objectName
  match aliasLookup n with
  | some canonical => n :: canonical
  | none => [n]

/-- The match condition of the loop at lines 373-376:
`cls_lower in search_names or object_name in cls_lower` (with
`object_name` already normalized). -/
def matchesTarget (objectName : String) (d : Detection) : Bool :=
  let clsLower := pyLower d.cls
  (searchNames objectName).contains clsLower || isSubstrOf (normalizeTerm objectName) clsLower

/-- Result dict of `find_tracked_object` (lines 384-391). -/
structure FoundObject where
  detected : Bool
  cls : String
  x : ℚ
  y : ℚ
  confidence : ℚ
  bbox : BBox
deriving DecidableEq, Repr

/-- `find_tracked_object` (lines 182-391): collect the detections
matching the (alias-resolved) target term, then return the one with
maximal `area * confidence`, or `none` when nothing matches. -/
def find_tracked_object (detections : List Detection) (objectName : String) : Option FoundObject :=
  let matched := detections.filter (matchesTarget objectName)
  match maxByKey (fun d => d.area * d.confidence) matched with
  | none => none
  | some best => some ⟨true, best.cls, best.x, best.y, best.confidence, best.bbox⟩

/-- The global `tracked_object` (line 32): `None` at start, or the
name stored by `/track/set`. -/
abbrev TrackingState := Option String

/-- Python truthiness of `tracked_object`: `None` and the empty string
are falsy. -/
def truthy : Option String → Bool
  | none => false
  | some s => !(s == "")

/-- The state at service start (line 32): `tracked_object = None`. -/
def initialState : TrackingState := none

/-- `/track/set` (lines 533-541): `tracked_object = data.get('object')`,
replacing any prior value unconditionally. -/
def setTarget (objectName : Option String) (_s : TrackingState) : TrackingState :=
  objectName

/-- `/track/clear` (lines 543-551): `tracked_object = None`. -/
def clearTarget (_s : TrackingState) : TrackingState :=
  none

/-- The spec's abstract tracking mode.  `/track/auto` decides which
policy to run by `if tracked_object:` (line 574), so `object` mode is
exactly a truthy stored name. -/
inductive Mode
  | face
  | object
deriving DecidableEq, Repr

/-- The mode a state is in, per the truthiness test of line 574. -/
def stateMode (s : TrackingState) : Mode :=
  if truthy s then Mode.object else Mode.face

/-- Which policy `/track/auto` ran, together with its result. -/
inductive AutoResult
  | byObject (r : Option FoundObject)
  | byFace (r : Option FoundFace)
deriving DecidableEq, Repr

/-- The policy dispatch of `/track/auto` (lines 573-583):
`if tracked_object:` run the Object policy on the stored name, else the
Face policy. -/
def trackAuto (s : TrackingState) (detections : List Detection) : Mode × AutoResult :=
  match s with
  | some name =>
      if name == "" then (Mode.face, AutoResult.byFace (find_face detections))
      else (Mode.object, AutoResult.byObject (find_tracked_object detections name))
  | none => (Mode.face, AutoResult.byFace (find_face detections))

/-- Python `a or b` on the optional body field and the stored name
(line 501: `data.get('object') or tracked_object`). -/
def pyOr (a b : Option String) : Option String :=
  if truthy a then a else b

/-- The responses `/track/object` can produce (lines 498-531). -/
inductive ObjectResponse
  | noImage
  | noObject
  | decodeFailed
  | detectorError (msg : String)
  | ok (tracking : String) (result : Option FoundObject)
deriving DecidableEq, Repr

/-- `/track/object` (lines 498-531): resolve the effective name as
`data.get('object') or tracked_object`, validate image and name, then
run the Object policy.  The detector outcome is passed in as
`detections`; the state component of the result is the value of
`tracked_object` after the request (the handler never assigns it). -/
def trackObjectEndpoint (imageProvided decodeOk : Bool) (bodyObject : Option String)
    (detections : Except String (List Detection)) (s : TrackingState) :
    ObjectResponse × TrackingState :=
  let objectName := pyOr bodyObject s
  if !imageProvided then (ObjectResponse.noImage, s)
  else if !(truthy objectName) then (ObjectResponse.noObject, s)
  else if !decodeOk then (ObjectResponse.decodeFailed, s)
  else
    match detections with
    | Except.error e => (ObjectResponse.detectorError e, s)
    | Except.ok ds =>
        (ObjectResponse.ok (objectName.getD "") (find_tracked_object ds (objectName.getD "")), s)

/-- The responses `/track/face` can produce (lines 470-496). -/
inductive FaceResponse
  | noImage
  | decodeFailed
  | detectorError (msg : String)
  | ok (face : Option FoundFace)
deriving DecidableEq, Repr

/-- `/track/face` (lines 470-496): validate, then run the Face policy
on the detector's (person-filtered) output. -/
def trackFaceEndpoint (imageProvided decodeOk : Bool)
    (detections : Except String (List Detection)) : FaceResponse :=
  if !imageProvided then FaceResponse.noImage
  else if !decodeOk then FaceResponse.decodeFailed
  else
    match detections with
    | Except.error e => FaceResponse.detectorError e
    | Except.ok ds => FaceResponse.ok (find_face ds)

/-- Whether an `/track/object` response is the `success: True` shape. -/
def objRespSuccess : ObjectResponse → Bool
  | ObjectResponse.ok _ _ => true
  | _ => false

/-- Whether a `/track/face` response is the `success: True` shape. -/
def faceRespSuccess : FaceResponse → Bool
  | FaceResponse.ok _ => true
  | _ => false

/-- The `result or {"detected": False, "x": 0, "y": 0}` fallback used
when serializing object-tracking responses (lines 529 and 593): the
emitted payload has `detected = false` exactly when the policy found
nothing. -/
def objPayloadDetected : Option FoundObject → Bool
  | some f => f.detected
  | none => false

/-- Same fallback for face payloads (lines 494 and 593). -/
def facePayloadDetected : Option FoundFace → Bool
  | some f => f.detected
  | none => false

/-- The success response of `/detect` (lines 463-468). -/
structure DetectResponse where
  success : Bool
  detections : List Detection
  count : ℕ
deriving DecidableEq, Repr

/-- `/detect`'s success branch: every detection, with its count. -/
def detectEndpoint (detections : List Detection) : DetectResponse :=
  ⟨true, detections, detections.length⟩

/-- States reachable from service start through the two mutating
endpoints, with `/track/set` restricted to non-empty names. -/
inductive Reachable : TrackingState → Prop
  | init : Reachable initialState
  | set (name : String) (h : name ≠ "") {s : TrackingState} :
      Reachable s → Reachable (setTarget (some name) s)
  | clear {s : TrackingState} : Reachable s → Reachable (clearTarget s)

/-- The fold underlying `maxByKey`: it returns the accumulator when no
element strictly beats it, and otherwise the first list element
attaining the strict maximum over accumulator and list. -/
lemma foldl_pickMax_spec (key : Detection → ℚ) (ds : List Detection) (acc : Detection) :
    (ds.foldl (fun best x => if key x > key best then x else best) acc = acc ∧
      ∀ x ∈ ds, key x ≤ key acc) ∨
    (∃ l1 m l2, ds = l1 ++ m :: l2 ∧
      ds.foldl (fun best x => if key x > key best then x else best) acc = m ∧
      key acc < key m ∧ (∀ x ∈ l1, key x < key m) ∧ (∀ x ∈ l2, key x ≤ key m)) := by
  induction ds generalizing acc with
  | nil => exact Or.inl ⟨rfl, by simp⟩
  | cons x ds ih =>
    simp only [List.foldl_cons]
    by_cases h : key x > key acc
    · rw [if_pos h]
      rcases ih x with ⟨heq, hle⟩ | ⟨l1, m, l2, hds, heq, hlt, hl1, hl2⟩
      · exact Or.inr ⟨[], x, ds, by simp, heq, h, by simp, hle⟩
      · refine Or.inr ⟨x :: l1, m, l2, by simp [hds], heq, lt_trans h hlt, ?_, hl2⟩
        intro y hy
        rcases List.mem_cons.mp hy with rfl | hy
        · exact hlt
        · exact hl1 y hy
    · rw [if_neg h]
      push_neg at h
      rcases ih acc with ⟨heq, hle⟩ | ⟨l1, m, l2, hds, heq, hlt, hl1, hl2⟩
      · refine Or.inl ⟨heq, ?_⟩
        intro y hy
        rcases List.mem_cons.mp hy with rfl | hy
        · exact h
        · exact hle y hy
      · refine Or.inr ⟨x :: l1, m, l2, by simp [hds], heq, hlt, ?_, hl2⟩
        intro y hy
        rcases List.mem_cons.mp hy with rfl | hy
        · exact lt_of_le_of_lt h hlt
        · exact hl1 y hy

/-- `maxByKey` returns `none` exactly on the empty list. -/
lemma maxByKey_eq_none_iff (key : Detection → ℚ) (ds : List Detection) :
    maxByKey key ds = none ↔ ds = [] := by
  cases ds <;> simp [maxByKey]

/-- A `maxByKey` result is a member of the list maximizing the key,
and it is the first member attaining that maximum. -/
lemma maxByKey_spec (key : Detection → ℚ) (ds : List Detection) (m : Detection)
    (h : maxByKey key ds = some m) :
    m ∈ ds ∧ (∀ x ∈ ds, key x ≤ key m) ∧
      ∃ l1 l2, ds = l1 ++ m :: l2 ∧ ∀ x ∈ l1, key x < key m := by
  cases ds with
  | nil => simp [maxByKey] at h
  | cons d rest =>
    simp only [maxByKey, Option.some.injEq] at h
    rcases foldl_pickMax_spec key rest d with ⟨heq, hle⟩ | ⟨l1, mm, l2, hds, heq, hlt, hl1, hl2⟩
    · have hmd : m = d := by rw [← h, heq]
      subst hmd
      refine ⟨List.mem_cons_self _ _, ?_, [], rest, rfl, by simp⟩
      intro y hy
      rcases List.mem_cons.mp hy with rfl | hy
      · exact le_refl _
      · exact hle y hy
    · have hmm : mm = m := by rw [← h, heq]
      subst hmm
      refine ⟨?_, ?_, d :: l1, l2, by simp [hds], ?_⟩
      · rw [hds]
        simp
      · intro y hy
        rcases List.mem_cons.mp hy with rfl | hy
        · exact le_of_lt hlt
        · rw [hds] at hy
          rcases List.mem_append.mp hy with hy | hy
          · exact le_of_lt (hl1 y hy)
          · rcases List.mem_cons.mp hy with rfl | hy
            · exact le_refl _
            · exact hl2 y hy
      · intro y hy
        rcases List.mem_cons.mp hy with rfl | hy
        · exact hlt
        · exact hl1 y hy

/-- A bounding box used by the concrete test detections. -/
def sampleBBox : BBox :=
  ⟨0, 0, 1/2, 1/2⟩

/-- A cup seen small but confidently: area `0.1`, confidence `0.9`. -/
def cupSmall : Detection :=
  ⟨"cup", 9/10, 0, 0, 1/10, 1, 1/10, sampleBBox⟩

/-- A cup seen large but barely: area `0.3`, confidence `0.2`. -/
def cupLarge : Detection :=
  ⟨"cup", 2/10, 1/2, 1/2, 3/10, 1, 3/10, sampleBBox⟩

/-- A person detection of the given area. -/
def personOfArea (a : ℚ) : Detection :=
  ⟨"person", 1/2, 0, 0, a, 1, a, sampleBBox⟩

/-- The Object policy finds nothing exactly when no detection
satisfies the match condition. -/
lemma find_tracked_object_eq_none_iff (ds : List Detection) (term : String) :
    find_tracked_object ds term = none ↔ ∀ d ∈ ds, matchesTarget term d = false := by
  simp only [find_tracked_object]
  constructor
  · intro h d hd
    cases hmax : maxByKey (fun x => x.area * x.confidence) (ds.filter (matchesTarget term)) with
    | none =>
        have hnil := (maxByKey_eq_none_iff _ _).mp hmax
        have := List.filter_eq_nil_iff.mp hnil d hd
        simpa using this
    | some best =>
        rw [hmax] at h
        cases h
  · intro hall
    have hfil : ds.filter (matchesTarget term) = [] :=
      List.filter_eq_nil_iff.mpr (fun d hd => by simp [hall d hd])
    rw [hfil]
    rfl

/-- C10: class-label lookup is total: an id outside the 80-entry
vocabulary yields the synthetic label `class_<id>` instead of an
out-of-bounds access, and an id inside it yields the table entry. -/
theorem class_label_lookup_total :
    (∀ clsId : ℕ, COCO_CLASSES.length ≤ clsId →
        cocoClassName clsId = "class_" ++ toString clsId) ∧
    (∀ clsId : ℕ, ∀ h : clsId < COCO_CLASSES.length,
        cocoClassName clsId = COCO_CLASSES.get ⟨clsId, h⟩) ∧
    COCO_CLASSES.length = 80 := by
  refine ⟨?_, ?_, by decide⟩
  · intro clsId h
    unfold cocoClassName
    rw [dif_neg (not_lt.mpr h)]
  · intro clsId h
    unfold cocoClassName
    rw [dif_pos h]

/-- Witness for C10 at the out-of-vocabulary id 85. -/
theorem class_label_lookup_total_witness :
    cocoClassName 85 = "class_" ++ toString 85 :=
  class_label_lookup_total.1 85 (by decide)

/-- C8: `Clear()` sends every state to the Face state with no
remembered target, is idempotent, and `SetTarget(name)` followed by
`Clear()` restores exactly the initial state of a fresh service. -/
theorem clear_resets_to_initial :
    (∀ s : TrackingState, clearTarget s = initialState ∧
        stateMode (clearTarget s) = Mode.face ∧
        clearTarget s = none ∧
        clearTarget (clearTarget s) = clearTarget s) ∧
    ∀ (name : String) (s : TrackingState),
      clearTarget (setTarget (some name) s) = initialState :=
  ⟨fun _ => ⟨rfl, rfl, rfl, rfl⟩, fun _ _ => rfl⟩

/-- C4: alias resolution normalizes the term, then yields the term
plus its alias entries when the term is an alias key, and the singleton
of the term otherwise; `phone` resolves to include `cell phone`,
`bike` to include `bicycle` and `motorcycle`, and the unknown `widget`
to exactly itself. -/
theorem alias_resolution_spec :
    (∀ (term : String) (ls : List String),
        aliasLookup (normalizeTerm term) = some ls →
          searchNames term = normalizeTerm term :: ls) ∧
    (∀ term : String, aliasLookup (normalizeTerm term) = none →
        searchNames term = [normalizeTerm term]) ∧
    "cell phone" ∈ searchNames "phone" ∧
    "bicycle" ∈ searchNames "bike" ∧
    "motorcycle" ∈ searchNames "bike" ∧
    searchNames "widget" = ["widget"] := by
  refine ⟨?_, ?_, by decide, by decide, by decide, by decide⟩
  · intro term ls h
    simp only [searchNames, h]
  · intro term h
    simp only [searchNames, h]

/-- Witness for C4 at the alias key `phone`. -/
theorem alias_resolution_spec_witness :
    searchNames "phone" = normalizeTerm "phone" :: ["cell phone"] :=
  alias_resolution_spec.1 "phone" ["cell phone"] (by decide)

/-- C3: a detection counts as a match for the Object policy exactly
when its lowercased class label is one of the resolved candidate
labels, or the normalized term is a substring of the lowercased class
label; and the policy finds something exactly when some detection
matches. -/
theorem object_match_condition (term : String) :
    (∀ d : Detection, matchesTarget term d = true ↔
        pyLower d.cls ∈ searchNames term ∨
          isSubstrOf (normalizeTerm term) (pyLower d.cls) = true) ∧
    ∀ ds : List Detection,
      find_tracked_object ds term ≠ none ↔ ∃ d ∈ ds, matchesTarget term d = true := by
  constructor
  · intro d
    simp [matchesTarget]
  · intro ds
    rw [Ne, find_tracked_object_eq_none_iff]
    constructor
    · intro h
      by_contra hno
      push_neg at hno
      exact h (fun d hd => by
        have := hno d hd
        simpa using this)
    · rintro ⟨d, hd, hmatch⟩ hall
      rw [hall d hd] at hmatch
      cases hmatch

/-- Evaluation of the Object policy on the spec's tie-break pair: the
joint scores are `0.09` and `0.06`, so the small confident cup wins. -/
lemma cup_tiebreak_eval :
    find_tracked_object [cupSmall, cupLarge] "cup" =
      some ⟨true, "cup", 0, 0, 9/10, sampleBBox⟩ := by
  have h1 : matchesTarget "cup" cupSmall = true := by decide
  have h2 : matchesTarget "cup" cupLarge = true := by decide
  have h3 : ¬(cupLarge.area * cupLarge.confidence > cupSmall.area * cupSmall.confidence) := by
    simp only [cupSmall, cupLarge]
    norm_num
  simp only [find_tracked_object, List.filter_cons, List.filter_nil, h1, h2, if_pos,
    maxByKey, List.foldl_cons, List.foldl_nil, if_neg h3]
  rfl

/-- C1: whenever the Object policy returns a result, the result is
built from a matching detection whose `area * confidence` is maximal
among all matching detections; in particular, of two matching cups with
(area `0.1`, confidence `0.9`) and (area `0.3`, confidence `0.2`) the
first is selected. -/
theorem object_policy_selects_max_joint_score (ds : List Detection) (term : String)
    (r : FoundObject) (h : find_tracked_object ds term = some r) :
    (∃ d ∈ ds, matchesTarget term d = true ∧
        r = ⟨true, d.cls, d.x, d.y, d.confidence, d.bbox⟩ ∧
        ∀ d' ∈ ds, matchesTarget term d' = true →
          d'.area * d'.confidence ≤ d.area * d.confidence) ∧
      find_tracked_object [cupSmall, cupLarge] "cup" =
        some ⟨true, "cup", 0, 0, 9/10, sampleBBox⟩ := by
  refine ⟨?_, cup_tiebreak_eval⟩
  simp only [find_tracked_object] at h
  cases hmax : maxByKey (fun d => d.area * d.confidence) (ds.filter (matchesTarget term)) with
  | none =>
      rw [hmax] at h
      cases h
  | some best =>
      rw [hmax] at h
      obtain ⟨hmem, hle, -⟩ := maxByKey_spec _ _ _ hmax
      refine ⟨best, (List.mem_filter.mp hmem).1, (List.mem_filter.mp hmem).2, ?_, ?_⟩
      · exact (Option.some.inj h).symm
      · intro d' hd' hmatch
        exact hle d' (List.mem_filter.mpr ⟨hd', hmatch⟩)

/-- Witness for C1 at the spec's tie-break pair. -/
theorem object_policy_selects_max_joint_score_witness :
    (∃ d ∈ [cupSmall, cupLarge], matchesTarget "cup" d = true ∧
        (⟨true, "cup", 0, 0, 9/10, sampleBBox⟩ : FoundObject) =
          ⟨true, d.cls, d.x, d.y, d.confidence, d.bbox⟩ ∧
        ∀ d' ∈ [cupSmall, cupLarge], matchesTarget "cup" d' = true →
          d'.area * d'.confidence ≤ d.area * d.confidence) ∧
      find_tracked_object [cupSmall, cupLarge] "cup" =
        some ⟨true, "cup", 0, 0, 9/10, sampleBBox⟩ :=
  object_policy_selects_max_joint_score [cupSmall, cupLarge] "cup"
    ⟨true, "cup", 0, 0, 9/10, sampleBBox⟩ cup_tiebreak_eval

/-- The Face policy at the exact `close`/`medium` boundary: a person of
area exactly `0.15` is banded `medium`. -/
lemma face_band_boundary_medium :
    find_face [personOfArea (15/100)] = some ⟨true, 0, 0, "medium", 1/2, sampleBBox⟩ := by
  have hp : ((personOfArea (15/100)).cls == "person") = true := by decide
  simp only [find_face, List.filter_cons, List.filter_nil, hp, if_pos,
    maxByKey, List.foldl_nil]
  norm_num [personOfArea]

/-- The Face policy at the exact `medium`/`far` boundary: a person of
area exactly `0.05` is banded `far`. -/
lemma face_band_boundary_far :
    find_face [personOfArea (5/100)] = some ⟨true, 0, 0, "far", 1/2, sampleBBox⟩ := by
  have hp : ((personOfArea (5/100)).cls == "person") = true := by decide
  simp only [find_face, List.filter_cons, List.filter_nil, hp, if_pos,
    maxByKey, List.foldl_nil]
  norm_num [personOfArea]

/-- C2: on a non-empty list of person detections the Face policy
returns the first detection of maximal area, with the distance band
given exactly by the `0.15` and `0.05` thresholds; in particular area
`0.15` is banded `medium` and area `0.05` is banded `far`. -/
theorem face_policy_max_area_and_bands (ds : List Detection)
    (hne : ds ≠ []) (hpers : ∀ d ∈ ds, d.cls = "person") :
    (∃ best ∈ ds,
        (∃ f : FoundFace, find_face ds = some f ∧ f.detected = true ∧
            f.x = best.x ∧ f.y = best.y ∧ f.confidence = best.confidence ∧
            f.bbox = best.bbox ∧
            (15/100 < best.area → f.distance = "close") ∧
            (5/100 < best.area ∧ best.area ≤ 15/100 → f.distance = "medium") ∧
            (best.area ≤ 5/100 → f.distance = "far")) ∧
        (∀ d ∈ ds, d.area ≤ best.area) ∧
        ∃ l1 l2, ds = l1 ++ best :: l2 ∧ ∀ d ∈ l1, d.area < best.area) ∧
      find_face [personOfArea (15/100)] = some ⟨true, 0, 0, "medium", 1/2, sampleBBox⟩ ∧
      find_face [personOfArea (5/100)] = some ⟨true, 0, 0, "far", 1/2, sampleBBox⟩ := by
  refine ⟨?_, face_band_boundary_medium, face_band_boundary_far⟩
  have hfil : ds.filter (fun d => d.cls == "person") = ds :=
    List.filter_eq_self.mpr (fun d hd => by simp [hpers d hd])
  cases hmax : maxByKey (fun d => d.area) ds with
  | none => exact absurd ((maxByKey_eq_none_iff _ _).mp hmax) hne
  | some best =>
      obtain ⟨hmem, hle, l1, l2, hsplit, hfirst⟩ := maxByKey_spec _ _ _ hmax
      have hff : find_face ds = some ⟨true, best.x, best.y,
          (if best.area > 15/100 then "close"
           else if best.area > 5/100 then "medium" else "far"),
          best.confidence, best.bbox⟩ := by
        simp only [find_face, hfil, hmax]
      refine ⟨best, hmem, ⟨_, hff, rfl, rfl, rfl, rfl, rfl, ?_, ?_, ?_⟩,
        hle, l1, l2, hsplit, hfirst⟩
      · intro h
        simp only [gt_iff_lt, if_pos h]
      · rintro ⟨h1, h2⟩
        simp only [gt_iff_lt, if_neg (not_lt.mpr h2), if_pos h1]
      · intro h
        have h2 : ¬(15/100 < best.area) := not_lt.mpr (le_trans h (by norm_num))
        simp only [gt_iff_lt, if_neg h2, if_neg (not_lt.mpr h)]

/-- Witness for C2 on a singleton person list of area `0.2`. -/
theorem face_policy_max_area_and_bands_witness :
    (∃ best ∈ [personOfArea (2/10)],
        (∃ f : FoundFace, find_face [personOfArea (2/10)] = some f ∧ f.detected = true ∧
            f.x = best.x ∧ f.y = best.y ∧ f.confidence = best.confidence ∧
            f.bbox = best.bbox ∧
            (15/100 < best.area → f.distance = "close") ∧
            (5/100 < best.area ∧ best.area ≤ 15/100 → f.distance = "medium") ∧
            (best.area ≤ 5/100 → f.distance = "far")) ∧
        (∀ d ∈ [personOfArea (2/10)], d.area ≤ best.area) ∧
        ∃ l1 l2, [personOfArea (2/10)] = l1 ++ best :: l2 ∧ ∀ d ∈ l1, d.area < best.area) ∧
      find_face [personOfArea (15/100)] = some ⟨true, 0, 0, "medium", 1/2, sampleBBox⟩ ∧
      find_face [personOfArea (5/100)] = some ⟨true, 0, 0, "far", 1/2, sampleBBox⟩ :=
  face_policy_max_area_and_bands [personOfArea (2/10)] (by simp) (by decide)

/-- C5 counterexample: `/track/set` accepts the empty string, after
which the machine is in Face mode (so `SetTarget("")` did not move to
`Object("")`), yet the empty name is still remembered in face mode. -/
theorem setTarget_empty_name_refutes_claim :
    stateMode (setTarget (some "") initialState) = Mode.face ∧
      setTarget (some "") initialState ≠ none := by
  decide

/-- C5 (amended to non-empty names): every state reachable through
`SetTarget` with non-empty names and `Clear` has a non-empty target
exactly in object mode and remembers nothing in face mode, and
`SetTarget(name)` with a non-empty name sends any state to
`Object(name)`. -/
theorem tracking_state_invariant (s : TrackingState) (hs : Reachable s) :
    ((stateMode s = Mode.object → ∃ n, s = some n ∧ n ≠ "") ∧
      (stateMode s = Mode.face → s = none)) ∧
    ∀ (name : String) (t : TrackingState), name ≠ "" →
      setTarget (some name) t = some name ∧
        stateMode (setTarget (some name) t) = Mode.object := by
  constructor
  · induction hs with
    | init =>
        exact ⟨(fun h => nomatch h), fun _ => rfl⟩
    | set name hname _ _ =>
        refine ⟨fun _ => ⟨name, rfl, hname⟩, fun h => ?_⟩
        have : (name == "") = false := beq_eq_false_iff_ne.mpr hname
        simp [setTarget, stateMode, truthy, this] at h
    | clear _ _ =>
        exact ⟨(fun h => nomatch h), fun _ => rfl⟩
  · intro name t hname
    have : (name == "") = false := beq_eq_false_iff_ne.mpr hname
    exact ⟨rfl, by simp [setTarget, stateMode, truthy, this]⟩

/-- Witness for the amended C5 at the reachable state `some "cup"`. -/
theorem tracking_state_invariant_witness :
    ∃ n, (some "cup" : TrackingState) = some n ∧ n ≠ "" :=
  (tracking_state_invariant (some "cup")
    (Reachable.set "cup" (by decide) Reachable.init)).1.1 (by decide)

/-- C6: `/track/auto` runs the Face policy whenever the state is in
face mode (in particular in the initial, never-set state) and the
Object policy on the stored name whenever the state is in object
mode. -/
theorem auto_dispatch_by_mode :
    (∀ (s : TrackingState) (ds : List Detection),
        (stateMode s = Mode.face →
          trackAuto s ds = (Mode.face, AutoResult.byFace (find_face ds))) ∧
        ∀ name : String, s = some name → stateMode s = Mode.object →
          trackAuto s ds = (Mode.object, AutoResult.byObject (find_tracked_object ds name))) ∧
    ∀ ds : List Detection,
      trackAuto initialState ds = (Mode.face, AutoResult.byFace (find_face ds)) := by
  constructor
  · intro s ds
    constructor
    · intro hface
      match s with
      | none => rfl
      | some name =>
          by_cases h : name = ""
          · subst h
            simp [trackAuto]
          · exfalso
            have : (name == "") = false := beq_eq_false_iff_ne.mpr h
            simp [stateMode, truthy, this] at hface
    · intro name hs hobj
      subst hs
      have h : name ≠ "" := by
        intro h
        subst h
        simp [stateMode, truthy] at hobj
      have : (name == "") = false := beq_eq_false_iff_ne.mpr h
      simp [trackAuto, this]
  · intro ds
    rfl

/-- Witness for C6: with stored target `cup` the auto endpoint runs the
Object policy, at the concrete empty frame. -/
theorem auto_dispatch_by_mode_witness :
    trackAuto (some "cup") [] =
      (Mode.object, AutoResult.byObject (find_tracked_object [] "cup")) :=
  (auto_dispatch_by_mode.1 (some "cup") []).2 "cup" rfl (by decide)

/-- C7: `/track/object` never mutates the tracking state, and when the
body carries no object name but a (truthy) target is stored, it runs
the Object policy against that stored name. -/
theorem trackObject_no_mutation_and_fallback :
    (∀ (imageProvided decodeOk : Bool) (bodyObject : Option String)
        (det : Except String (List Detection)) (s : TrackingState),
        (trackObjectEndpoint imageProvided decodeOk bodyObject det s).2 = s) ∧
    ∀ (s : TrackingState) (name : String) (ds : List Detection),
      s = some name → name ≠ "" →
        trackObjectEndpoint true true none (Except.ok ds) s =
          (ObjectResponse.ok name (find_tracked_object ds name), s) := by
  constructor
  · intro imageProvided decodeOk bodyObject det s
    simp only [trackObjectEndpoint]
    split
    · rfl
    split
    · rfl
    split
    · rfl
    split
    · rfl
    · rfl
  · intro s name ds hs hname
    subst hs
    have hb : (name == "") = false := beq_eq_false_iff_ne.mpr hname
    simp [trackObjectEndpoint, pyOr, truthy, hb]

/-- Witness for C7: with stored target `cup`, a body with no name and
an empty frame. -/
theorem trackObject_no_mutation_and_fallback_witness :
    trackObjectEndpoint true true none (Except.ok []) (some "cup") =
      (ObjectResponse.ok "cup" (find_tracked_object [] "cup"), some "cup") :=
  trackObject_no_mutation_and_fallback.2 (some "cup") "cup" [] rfl (by decide)

/-- C9: a resolution miss is not an error: with zero matches the
object endpoint still answers with the success shape and a
`detected = false` payload, the face endpoint likewise, and `/detect`
with zero detections answers success with count `0` and an empty
list. -/
theorem resolution_miss_not_error :
    (detectEndpoint [] = ⟨true, [], 0⟩) ∧
    (∀ ds : List Detection, (detectEndpoint ds).success = true ∧
        (detectEndpoint ds).count = ds.length) ∧
    (∀ (ds : List Detection) (term : String),
        (∀ d ∈ ds, matchesTarget term d = false) → find_tracked_object ds term = none) ∧
    (∀ (s : TrackingState) (name : String) (ds : List Detection),
        name ≠ "" → find_tracked_object ds name = none →
          (trackObjectEndpoint true true (some name) (Except.ok ds) s).1 =
              ObjectResponse.ok name none ∧
            objRespSuccess (trackObjectEndpoint true true (some name) (Except.ok ds) s).1 =
              true ∧
            objPayloadDetected none = false) ∧
    ∀ ds : List Detection, find_face ds = none →
      trackFaceEndpoint true true (Except.ok ds) = FaceResponse.ok none ∧
        faceRespSuccess (trackFaceEndpoint true true (Except.ok ds)) = true ∧
        facePayloadDetected none = false := by
  refine ⟨rfl, fun ds => ⟨rfl, rfl⟩, ?_, ?_, ?_⟩
  · intro ds term hall
    exact (find_tracked_object_eq_none_iff ds term).mpr hall
  · intro s name ds hname hnone
    have hb : (name == "") = false := beq_eq_false_iff_ne.mpr hname
    constructor
    · simp [trackObjectEndpoint, pyOr, truthy, hb, hnone]
    constructor
    · simp [trackObjectEndpoint, pyOr, truthy, hb, objRespSuccess]
    · rfl
  · intro ds hnone
    refine ⟨?_, ?_, rfl⟩
    · simp [trackFaceEndpoint, hnone]
    · simp [trackFaceEndpoint, hnone, faceRespSuccess]

/-- Witness for C9: the unknown term `widget` matches nothing in a
frame holding one person. -/
theorem resolution_miss_not_error_witness :
    find_tracked_object [personOfArea (2/10)] "widget" = none :=
  resolution_miss_not_error.2.2.1 [personOfArea (2/10)] "widget" (by decide)
